import Mathlib

/-!
# Verification of the blog_app authorization pipeline

A shallow embedding of the policy-gated content API:

* `src/app/cerbos_client.py` — `CerbosClientClass.check_access`: assembles a
  decision request from principal/resource dicts and asks the remote policy
  decision point (PDP); any exception raised by the remote call is caught and
  converted to `False`.
* `src/app/main.py` — the FastAPI handlers `create_post`, `get_posts`,
  `get_post`, `update_post`, `delete_post`: existence check (404), then the
  authorization gate (403 on deny), then the database effect.
* `src/app/models.py` / `src/app/schemas.py` — `Role`, `Post`, `User`,
  `PostCreate`, `PostUpdate`.

The remote PDP is modelled as a parameter: a function from the assembled
request to `Except PyErr Bool`, where `.error` stands for any exception the
remote call may raise (transport error, timeout, malformed response, ...).
Python dicts at the documented call shapes are modelled as structures with
`Option` fields (`none` = key absent); subscripting a missing key raises
`KeyError`, which the embedding represents with `Except`.
-/

set_option maxHeartbeats 1000000

namespace BlogApp

/-! ## Python-level values and errors -/

/-- A Python scalar as it appears as an attribute value in the principal or
resource dicts (`attr` maps).  The call sites in `main.py` only ever pass
ints (`author_id`), but the client stringifies arbitrary scalars. -/
inductive PyVal where
  | pyInt : Int → PyVal
  | pyStr : String → PyVal
  | pyBool : Bool → PyVal
deriving DecidableEq, Repr

/-- Python `str()` on the scalars above: `str(42) = "42"`, `str(True) = "True"`,
`str` on a string is the identity. -/
def PyVal.str : PyVal → String
  | .pyInt n => toString n
  | .pyStr s => s
  | .pyBool b => if b then "True" else "False"

/-- Python exceptions that can arise in the modelled code: `KeyError` from
subscripting a dict with a missing key (`principal["roles"]`,
`resource["kind"]`), and arbitrary failures of the remote `is_allowed` call
(connection refused, timeout, protocol error, any other exception). -/
inductive PyErr where
  | keyError : String → PyErr
  | transportError : PyErr
  | remoteError : String → PyErr
deriving DecidableEq, Repr

/-! ## Roles (`models.py`) -/

/-- `class Role(str, enum.Enum)` with members ADMIN/AUTHOR/READER. -/
inductive Role where
  | admin
  | author
  | reader
deriving DecidableEq, Repr

/-- `Role.<member>.value`: the enum member's declared string value. -/
def Role.val : Role → String
  | .admin => "admin"
  | .author => "author"
  | .reader => "reader"

/-- A Python value that is (an instance of) `str`: either a plain `str`, or a
`Role` enum member — `Role` mixes in `str`, so a member is a `str` whose
underlying character data is the member's declared value.  The handlers put
both shapes into the `roles` list: `[current_user.role.value]` in
`create_post`/`get_posts`, `[current_user.role]` in
`get_post`/`update_post`/`delete_post`. -/
inductive PyStrLike where
  | plainStr : String → PyStrLike
  | roleMember : Role → PyStrLike
deriving DecidableEq, Repr

/-- The character data carried by a `str`-like value: what a protobuf
`repeated string` field serializes when the value is assigned to it.  For a
`str`-mixin enum member this is the member's value (`Role.ADMIN`'s `str` data
is `"admin"`). -/
def PyStrLike.strContent : PyStrLike → String
  | .plainStr s => s
  | .roleMember r => r.val

/-! ## The dict arguments of `check_access` (`cerbos_client.py` docstring) -/

/-- The principal dict passed to `check_access`: keys `id` (optional,
`principal.get("id", "0")`), `roles` (required — `principal["roles"]` raises
`KeyError` when absent) and `attr` (optional, `principal.get("attr", {})`). -/
structure PrincipalDict where
  id : Option PyVal
  roles : Option (List PyStrLike)
  attr : List (String × PyVal)
deriving DecidableEq, Repr

/-- The resource dict passed to `check_access`: keys `id` (optional,
`resource.get("id", "0")` — not stringified by the client; every call site
passes a string), `kind` (required — `resource["kind"]` raises `KeyError`
when absent) and `attr` (optional). -/
structure ResourceDict where
  id : Option String
  kind : Option String
  attr : List (String × PyVal)
deriving DecidableEq, Repr

/-! ## The assembled protobuf request (`engine_pb2.Principal` / `Resource`) -/

/-- `google.protobuf.struct_pb2.Value` as used here.  The client only ever
constructs `Value(string_value=...)`, but the wire type admits other scalar
kinds, so "string-typed" is a real property of the assembled request. -/
inductive PbValue where
  | stringValue : String → PbValue
  | numberValue : Int → PbValue
  | boolValue : Bool → PbValue
deriving DecidableEq, Repr

/-- Whether a protobuf value is the string kind. -/
def PbValue.isString : PbValue → Bool
  | .stringValue _ => true
  | _ => false

/-- `engine_pb2.Principal(id=..., roles=..., policy_version="default", attr=...)`.
`roles` is a `repeated string` field, so each element carries only its
character data. -/
structure EnginePrincipal where
  id : String
  roles : List String
  policy_version : String
  attr : List (String × PbValue)
deriving DecidableEq, Repr

/-- `engine_pb2.Resource(id=..., kind=..., policy_version="default", attr=...)`. -/
structure EngineResource where
  id : String
  kind : String
  policy_version : String
  attr : List (String × PbValue)
deriving DecidableEq, Repr

/-- The remote PDP: `self.client.is_allowed(action, principal, resource)`.
`.ok b` is a normal boolean reply; `.error e` is the call raising exception
`e` (transport failure, timeout, malformed response, anything). -/
def PDP : Type := String → EnginePrincipal → EngineResource → Except PyErr Bool

/-! ## `check_access` (`cerbos_client.py` lines 45–73) -/

/-- Request assembly: `cerbos_client.py` lines 45–67.  Stringifies every
`attr` value into `Value(string_value=str(value))`, reads
`principal["roles"]` and `resource["kind"]` by subscript (raising `KeyError`
when absent), and defaults the ids (`principal.get("id", "0")` stringified,
`resource.get("id", "0")` as is).  No other validation is performed. -/
def assembleRequest (principal : PrincipalDict) (resource : ResourceDict) :
    Except PyErr (EnginePrincipal × EngineResource) := do
  let principal_attrs := principal.attr.map (fun kv => (kv.1, PbValue.stringValue kv.2.str))
  let roles ← match principal.roles with
    | some rs => Except.ok (rs.map PyStrLike.strContent)
    | none => Except.error (PyErr.keyError "roles")
  let p : EnginePrincipal :=
    { id := (principal.id.getD (PyVal.pyStr "0")).str
      roles := roles
      policy_version := "default"
      attr := principal_attrs }
  let resource_attrs := resource.attr.map (fun kv => (kv.1, PbValue.stringValue kv.2.str))
  let kind ← match resource.kind with
    | some k => Except.ok k
    | none => Except.error (PyErr.keyError "kind")
  let r : EngineResource :=
    { id := resource.id.getD "0"
      kind := kind
      policy_version := "default"
      attr := resource_attrs }
  Except.ok (p, r)

/-- The `try/except` around the remote call (`cerbos_client.py` lines 68–73):
a normal reply is returned as is, and any exception the call raises is
converted to `False` (`except Exception: return False`). -/
def guardRemote (res : Except PyErr Bool) : Except PyErr Bool :=
  match res with
  | Except.ok b => Except.ok b
  | Except.error _ => Except.ok false

/-- `check_access`, instrumented with a counter of remote `is_allowed`
invocations.  Assembly happens outside the `try` block; only the remote call
is guarded by `guardRemote`.  An assembly-time `KeyError` propagates to the
caller. -/
def check_access_counted (pdp : PDP) (principal : PrincipalDict) (resource : ResourceDict)
    (action : String) (calls : Nat) : Except PyErr Bool × Nat :=
  match assembleRequest principal resource with
  | Except.error e => (Except.error e, calls)
  | Except.ok (p, r) => (guardRemote (pdp action p r), calls + 1)

/-- `CerbosClientClass.check_access(principal, resource, action)`. -/
def check_access (pdp : PDP) (principal : PrincipalDict) (resource : ResourceDict)
    (action : String) : Except PyErr Bool :=
  (check_access_counted pdp principal resource action 0).1

/-! ## Domain model (`models.py`, `schemas.py`) -/

/-- A row of the `posts` table.  `title` and `content` columns are nullable
(SQLAlchemy `String`/`Text` columns default to nullable), so they are
`Option`-valued. -/
structure Post where
  id : Int
  title : Option String
  content : Option String
  author_id : Int
deriving DecidableEq, Repr

/-- The authenticated actor as the handlers use it: `current_user.id` and
`current_user.role`. -/
structure User where
  id : Int
  role : Role
deriving DecidableEq, Repr

/-- `PostCreate` payload: required `title` and `content`. -/
structure PostCreate where
  title : String
  content : String
deriving DecidableEq, Repr

/-- `PostUpdate` payload with pydantic unset-tracking: the outer `Option` is
whether the field was present in the payload at all (what
`dict(exclude_unset=True)` keys on); the inner `Option` is the field's value,
which may itself be an explicit `null` since both fields are
`Optional[str]`. -/
structure PostUpdate where
  title : Option (Option String)
  content : Option (Option String)
deriving DecidableEq, Repr

/-- The `setattr` loop of `update_post` (`main.py` lines 207–208): for each
field present in `post_update.dict(exclude_unset=True)` — iterated in field
declaration order, `title` then `content` — overwrite that attribute of the
stored post.  Fields absent from the payload, and `id`/`author_id` (not
fields of `PostUpdate`), are untouched. -/
def applyUpdate (u : PostUpdate) (p : Post) : Post :=
  let p1 := match u.title with
    | none => p
    | some v => { p with title := v }
  match u.content with
  | none => p1
  | some v => { p1 with content := v }

/-! ## Database session (persistence collaborator) -/

/-- `db.query(Post).filter(Post.id == post_id).first()`. -/
def dbFirst (db : List Post) (post_id : Int) : Option Post :=
  db.find? (fun p => p.id == post_id)

/-- Mutating the ORM object returned by `first()` and committing: the first
row with the given id is replaced by `f` applied to it; every other row is
untouched. -/
def updateWhere (db : List Post) (post_id : Int) (f : Post → Post) : List Post :=
  match db with
  | [] => []
  | p :: rest =>
    if p.id == post_id then f p :: rest else p :: updateWhere rest post_id f

/-- `db.delete(db_post); db.commit()`: the first row with the given id is
removed. -/
def deleteWhere (db : List Post) (post_id : Int) : List Post :=
  match db with
  | [] => []
  | p :: rest => if p.id == post_id then rest else p :: deleteWhere rest post_id

/-! ## The dict literals at the handler call sites (`main.py`) -/

/-- Principal dict built by `create_post` (line 105) and `get_posts`
(line 135): `{"id": str(current_user.id), "roles": [current_user.role.value]}`. -/
def valuePrincipalDict (u : User) : PrincipalDict :=
  { id := some (PyVal.pyStr (toString u.id))
    roles := some [PyStrLike.plainStr u.role.val]
    attr := [] }

/-- Principal dict built by `get_post` (line 166), `update_post` (line 200)
and `delete_post` (line 240): `{"id": str(current_user.id), "roles":
[current_user.role]}` — the enum member itself, not `.value`. -/
def memberPrincipalDict (u : User) : PrincipalDict :=
  { id := some (PyVal.pyStr (toString u.id))
    roles := some [PyStrLike.roleMember u.role]
    attr := [] }

/-- Resource dict built by `create_post` (line 106) and `get_posts`
(line 136): `{"kind": "post", "attr": {"author_id": current_user.id}}` — no
`id` key. -/
def actorResourceDict (u : User) : ResourceDict :=
  { id := none
    kind := some "post"
    attr := [("author_id", PyVal.pyInt u.id)] }

/-- Resource dict built by `get_post` (line 167), `update_post` (line 201)
and `delete_post` (line 241): `{"kind": "post", "id": str(post.id), "attr":
{"author_id": post.author_id}}`. -/
def existingResourceDict (p : Post) : ResourceDict :=
  { id := some (toString p.id)
    kind := some "post"
    attr := [("author_id", PyVal.pyInt p.author_id)] }

/-! ## HTTP handlers (`main.py`) -/

/-- The outcome a handler produces: a successful response body, an
`HTTPException(status_code, detail)`, or an uncaught Python exception
escaping the handler. -/
inductive HttpResult (α : Type) where
  | ok : α → HttpResult α
  | httpError : Nat → String → HttpResult α
  | pyError : PyErr → HttpResult α
deriving DecidableEq, Repr

/-- `create_post` (`main.py` lines 88–116).  Gate first (403 "Forbidden" on
deny), then insert the new post with the next autoincrement id and the acting
user as author.  `next_id` models the autoincrement primary-key counter. -/
def create_post (pdp : PDP) (post : PostCreate) (current_user : User)
    (db : List Post) (next_id : Int) (calls : Nat) :
    HttpResult Post × List Post × Nat :=
  match check_access_counted pdp (valuePrincipalDict current_user)
      (actorResourceDict current_user) "create" calls with
  | (Except.ok true, c) =>
    let new_post : Post :=
      { id := next_id, title := some post.title, content := some post.content
        author_id := current_user.id }
    (HttpResult.ok new_post, db ++ [new_post], c)
  | (Except.ok false, c) => (HttpResult.httpError 403 "Forbidden", db, c)
  | (Except.error e, c) => (HttpResult.pyError e, db, c)

/-- `get_posts` (`main.py` lines 118–141).  Gate first, then return every
post. -/
def get_posts (pdp : PDP) (current_user : User) (db : List Post) (calls : Nat) :
    HttpResult (List Post) × List Post × Nat :=
  match check_access_counted pdp (valuePrincipalDict current_user)
      (actorResourceDict current_user) "read" calls with
  | (Except.ok true, c) => (HttpResult.ok db, db, c)
  | (Except.ok false, c) => (HttpResult.httpError 403 "Forbidden", db, c)
  | (Except.error e, c) => (HttpResult.pyError e, db, c)

/-- `get_post` (`main.py` lines 143–172).  Existence check (404 "Post not
found") before the gate; gate deny is 403 "Forbidden". -/
def get_post (pdp : PDP) (post_id : Int) (current_user : User)
    (db : List Post) (calls : Nat) :
    HttpResult Post × List Post × Nat :=
  match dbFirst db post_id with
  | none => (HttpResult.httpError 404 "Post not found", db, calls)
  | some post =>
    match check_access_counted pdp (memberPrincipalDict current_user)
        (existingResourceDict post) "read" calls with
    | (Except.ok true, c) => (HttpResult.ok post, db, c)
    | (Except.ok false, c) => (HttpResult.httpError 403 "Forbidden", db, c)
    | (Except.error e, c) => (HttpResult.pyError e, db, c)

/-- `update_post` (`main.py` lines 174–213).  Existence check, gate, then
the `exclude_unset` setattr loop and commit. -/
def update_post (pdp : PDP) (post_id : Int) (post_update : PostUpdate)
    (current_user : User) (db : List Post) (calls : Nat) :
    HttpResult Post × List Post × Nat :=
  match dbFirst db post_id with
  | none => (HttpResult.httpError 404 "Post not found", db, calls)
  | some db_post =>
    match check_access_counted pdp (memberPrincipalDict current_user)
        (existingResourceDict db_post) "update" calls with
    | (Except.ok true, c) =>
      (HttpResult.ok (applyUpdate post_update db_post),
        updateWhere db post_id (applyUpdate post_update), c)
    | (Except.ok false, c) => (HttpResult.httpError 403 "Forbidden", db, c)
    | (Except.error e, c) => (HttpResult.pyError e, db, c)

/-- `delete_post` (`main.py` lines 215–249).  Existence check, gate, then
delete and commit. -/
def delete_post (pdp : PDP) (post_id : Int) (current_user : User)
    (db : List Post) (calls : Nat) :
    HttpResult String × List Post × Nat :=
  match dbFirst db post_id with
  | none => (HttpResult.httpError 404 "Post not found", db, calls)
  | some db_post =>
    match check_access_counted pdp (memberPrincipalDict current_user)
        (existingResourceDict db_post) "delete" calls with
    | (Except.ok true, c) =>
      (HttpResult.ok "Post deleted successfully", deleteWhere db post_id, c)
    | (Except.ok false, c) => (HttpResult.httpError 403 "Forbidden", db, c)
    | (Except.error e, c) => (HttpResult.pyError e, db, c)

/-! ## Concrete sample inputs used to exercise the theorems -/

/-- Does `check_access` return a boolean (rather than raise)? -/
def returnsBool : Except PyErr Bool → Bool
  | Except.ok _ => true
  | Except.error _ => false

/-- A PDP whose remote call always replies allow. -/
def allowPdp : PDP := fun _ _ _ => Except.ok true

/-- A PDP whose remote call always replies deny. -/
def denyPdp : PDP := fun _ _ _ => Except.ok false

/-- A PDP whose remote call always raises (connection refused, timeout, ...). -/
def errPdp : PDP := fun _ _ _ => Except.error PyErr.transportError

/-- A principal dict with no `"roles"` key. -/
def rolelessPrincipalDict : PrincipalDict :=
  { id := some (PyVal.pyStr "1"), roles := none, attr := [] }

/-- A minimal well-formed resource dict. -/
def simpleResourceDict : ResourceDict :=
  { id := none, kind := some "post", attr := [] }

/-- A principal dict whose id is empty and whose role list is empty. -/
def emptyFieldsPrincipalDict : PrincipalDict :=
  { id := some (PyVal.pyStr ""), roles := some [], attr := [] }

/-- A resource dict whose kind is the empty string. -/
def emptyKindResourceDict : ResourceDict :=
  { id := none, kind := some "", attr := [] }

/-- The request assembled from the empty-field dicts above: the empty id,
empty role list and empty kind pass through assembly untouched. -/
def emptyAssembledPrincipal : EnginePrincipal :=
  { id := "", roles := [], policy_version := "default", attr := [] }

/-- Resource side of the empty-field assembly: the absent resource id
defaults to `"0"` and the empty kind passes through. -/
def emptyAssembledResource : EngineResource :=
  { id := "0", kind := "", policy_version := "default", attr := [] }

/-- A sample authenticated user. -/
def sampleUser : User := { id := 1, role := Role.author }

/-- A sample stored post owned by `sampleUser`. -/
def samplePost : Post := { id := 5, title := some "t", content := some "c", author_id := 1 }

/-- A sample create payload. -/
def samplePostCreate : PostCreate := { title := "t2", content := "c2" }

/-- A sample update payload that provides `title` and omits `content`. -/
def sampleUpdate : PostUpdate := { title := some (some "new"), content := none }

/-- A principal dict with nontrivial attributes (a string and an int). -/
def attrPrincipalDict : PrincipalDict :=
  { id := some (PyVal.pyStr "1")
    roles := some [PyStrLike.plainStr "author"]
    attr := [("dept", PyVal.pyStr "eng"), ("level", PyVal.pyInt 42)] }

/-- A resource dict with nontrivial attributes (an int and a bool). -/
def attrResourceDict : ResourceDict :=
  { id := some "5"
    kind := some "post"
    attr := [("author_id", PyVal.pyInt 42), ("flag", PyVal.pyBool true)] }

/-- The principal assembled from `attrPrincipalDict`: every attribute is a
string-typed protobuf value carrying `str` of the original. -/
def attrAssembledPrincipal : EnginePrincipal :=
  { id := "1", roles := ["author"], policy_version := "default"
    attr := [("dept", PbValue.stringValue "eng"), ("level", PbValue.stringValue "42")] }

/-- The resource assembled from `attrResourceDict`. -/
def attrAssembledResource : EngineResource :=
  { id := "5", kind := "post", policy_version := "default"
    attr := [("author_id", PbValue.stringValue "42"), ("flag", PbValue.stringValue "True")] }

/-! ## Helper lemmas -/

/-- Assembly succeeds exactly when the `roles` and `kind` keys are present,
and then produces the stringified request. -/
theorem assembleRequest_ok (pd : PrincipalDict) (rd : ResourceDict)
    (rs : List PyStrLike) (k : String)
    (hr : pd.roles = some rs) (hk : rd.kind = some k) :
    assembleRequest pd rd = Except.ok
      ({ id := (pd.id.getD (PyVal.pyStr "0")).str
         roles := rs.map PyStrLike.strContent
         policy_version := "default"
         attr := pd.attr.map (fun kv => (kv.1, PbValue.stringValue kv.2.str)) },
       { id := rd.id.getD "0"
         kind := k
         policy_version := "default"
         attr := rd.attr.map (fun kv => (kv.1, PbValue.stringValue kv.2.str)) }) := by
  unfold assembleRequest
  rw [hr, hk]
  rfl

/-- When assembly succeeds, `check_access_counted` performs exactly one
guarded remote call. -/
theorem check_access_counted_ok (pdp : PDP) (pd : PrincipalDict) (rd : ResourceDict)
    (a : String) (c : Nat) (P : EnginePrincipal) (R : EngineResource)
    (h : assembleRequest pd rd = Except.ok (P, R)) :
    check_access_counted pdp pd rd a c = (guardRemote (pdp a P R), c + 1) := by
  unfold check_access_counted
  rw [h]

/-- When the keys are present, the counted run returns the `check_access`
verdict and bumps the invocation counter by exactly one. -/
theorem check_access_counted_split (pdp : PDP) (pd : PrincipalDict) (rd : ResourceDict)
    (a : String) (c : Nat) (rs : List PyStrLike) (k : String)
    (hr : pd.roles = some rs) (hk : rd.kind = some k) :
    check_access_counted pdp pd rd a c = (check_access pdp pd rd a, c + 1) := by
  have h := assembleRequest_ok pd rd rs k hr hk
  rw [check_access_counted_ok pdp pd rd a c _ _ h]
  unfold check_access
  rw [check_access_counted_ok pdp pd rd a 0 _ _ h]

/-- The guarded remote call always yields a boolean, never an exception. -/
theorem guardRemote_returnsBool (e : Except PyErr Bool) :
    returnsBool (guardRemote e) = true := by
  cases e <;> rfl

/-- A PDP that always raises makes the counted check return deny with one
invocation. -/
theorem check_access_counted_fails_closed (pdp : PDP)
    (err : String → EnginePrincipal → EngineResource → PyErr)
    (hfail : ∀ a p r, pdp a p r = Except.error (err a p r))
    (pd : PrincipalDict) (rd : ResourceDict) (a : String) (c : Nat)
    (rs : List PyStrLike) (k : String)
    (hr : pd.roles = some rs) (hk : rd.kind = some k) :
    check_access_counted pdp pd rd a c = (Except.ok false, c + 1) := by
  rw [check_access_counted_ok pdp pd rd a c _ _ (assembleRequest_ok pd rd rs k hr hk)]
  rw [hfail]
  rfl

/-- Every attribute value produced by the stringifying map is string-typed. -/
theorem all_isString_map (l : List (String × PyVal)) :
    (l.map (fun kv => (kv.1, PbValue.stringValue kv.2.str))).all
      (fun kv => kv.2.isString) = true := by
  induction l with
  | nil => rfl
  | cons x xs ih => simpa [PbValue.isString] using ih

/-! ## The claims -/

/-- C1: if the remote `is_allowed` call raises any exception, `check_access`
returns `False` — the error is never propagated and never becomes an allow —
so with an unreachable PDP every gated endpoint (create, read-all,
read-by-id, update, delete) returns the 403 forbidden outcome, the database
untouched.  The hypotheses `hroles`/`hkind` say the dicts reach the remote
call (assembly needs the `roles` and `kind` keys; every handler call site
supplies them), and `hfail` says the remote call raises on every input. -/
theorem c1_remote_failure_fails_closed (pdp : PDP)
    (err : String → EnginePrincipal → EngineResource → PyErr)
    (hfail : ∀ a p r, pdp a p r = Except.error (err a p r))
    (pd : PrincipalDict) (rd : ResourceDict) (action : String)
    (rs : List PyStrLike) (k : String)
    (hroles : pd.roles = some rs) (hkind : rd.kind = some k)
    (pc : PostCreate) (u : User) (pid nid : Int) (post : Post)
    (db : List Post) (c : Nat) (upd : PostUpdate)
    (hfound : dbFirst db pid = some post) :
    check_access pdp pd rd action = Except.ok false ∧
    create_post pdp pc u db nid c = (HttpResult.httpError 403 "Forbidden", db, c + 1) ∧
    get_posts pdp u db c = (HttpResult.httpError 403 "Forbidden", db, c + 1) ∧
    get_post pdp pid u db c = (HttpResult.httpError 403 "Forbidden", db, c + 1) ∧
    update_post pdp pid upd u db c = (HttpResult.httpError 403 "Forbidden", db, c + 1) ∧
    delete_post pdp pid u db c = (HttpResult.httpError 403 "Forbidden", db, c + 1) := by
  refine ⟨?_, ?_, ?_, ?_, ?_, ?_⟩
  · unfold check_access
    rw [check_access_counted_fails_closed pdp err hfail pd rd action 0 rs k hroles hkind]
  · unfold create_post
    rw [check_access_counted_fails_closed pdp err hfail _ _ _ c _ _ rfl rfl]
  · unfold get_posts
    rw [check_access_counted_fails_closed pdp err hfail _ _ _ c _ _ rfl rfl]
  · unfold get_post
    simp only [hfound]
    rw [check_access_counted_fails_closed pdp err hfail (memberPrincipalDict u)
      (existingResourceDict post) "read" c [PyStrLike.roleMember u.role] "post" rfl rfl]
  · unfold update_post
    simp only [hfound]
    rw [check_access_counted_fails_closed pdp err hfail (memberPrincipalDict u)
      (existingResourceDict post) "update" c [PyStrLike.roleMember u.role] "post" rfl rfl]
  · unfold delete_post
    simp only [hfound]
    rw [check_access_counted_fails_closed pdp err hfail (memberPrincipalDict u)
      (existingResourceDict post) "delete" c [PyStrLike.roleMember u.role] "post" rfl rfl]

/-- C1 witness: a PDP raising a transport error on every call denies
`check_access` and makes every endpoint return 403 on a one-post database. -/
theorem c1_remote_failure_fails_closed_witness :
    check_access errPdp (memberPrincipalDict sampleUser)
      (existingResourceDict samplePost) "delete" = Except.ok false ∧
    create_post errPdp samplePostCreate sampleUser [samplePost] 9 0 =
      (HttpResult.httpError 403 "Forbidden", [samplePost], 1) ∧
    get_posts errPdp sampleUser [samplePost] 0 =
      (HttpResult.httpError 403 "Forbidden", [samplePost], 1) ∧
    get_post errPdp 5 sampleUser [samplePost] 0 =
      (HttpResult.httpError 403 "Forbidden", [samplePost], 1) ∧
    update_post errPdp 5 sampleUpdate sampleUser [samplePost] 0 =
      (HttpResult.httpError 403 "Forbidden", [samplePost], 1) ∧
    delete_post errPdp 5 sampleUser [samplePost] 0 =
      (HttpResult.httpError 403 "Forbidden", [samplePost], 1) :=
  c1_remote_failure_fails_closed errPdp (fun _ _ _ => PyErr.transportError)
    (fun _ _ _ => rfl) (memberPrincipalDict sampleUser) (existingResourceDict samplePost)
    "delete" _ _ rfl rfl samplePostCreate sampleUser 5 9 samplePost [samplePost] 0
    sampleUpdate (by decide)

/-- C2 counterexample: `check_access` is claimed never to raise, but with a
principal dict lacking the `"roles"` key it raises `KeyError("roles")`
(`principal["roles"]` on line 52 sits outside the `try` block), even under a
PDP that would allow. -/
theorem c2_counterexample_missing_roles_raises :
    check_access allowPdp rolelessPrincipalDict simpleResourceDict "read" =
      Except.error (PyErr.keyError "roles") := rfl

/-- C2 amended: `check_access` returns a boolean whenever the principal dict
has a `"roles"` key and the resource dict has a `"kind"` key — whatever the
remote call does, including raising — but a missing `"roles"` key raises
`KeyError("roles")` and a missing `"kind"` key raises `KeyError("kind")` to
the caller, since request assembly happens outside the `try` block. -/
theorem c2_amended_no_raise_when_keys_present (pdp : PDP)
    (pd : PrincipalDict) (rd : ResourceDict) (a : String) :
    (∀ rs k, pd.roles = some rs → rd.kind = some k →
      returnsBool (check_access pdp pd rd a) = true) ∧
    (pd.roles = none →
      check_access pdp pd rd a = Except.error (PyErr.keyError "roles")) ∧
    (∀ rs, pd.roles = some rs → rd.kind = none →
      check_access pdp pd rd a = Except.error (PyErr.keyError "kind")) := by
  refine ⟨?_, ?_, ?_⟩
  · intro rs k hr hk
    unfold check_access
    rw [check_access_counted_ok pdp pd rd a 0 _ _ (assembleRequest_ok pd rd rs k hr hk)]
    exact guardRemote_returnsBool _
  · intro hnone
    unfold check_access check_access_counted assembleRequest
    rw [hnone]
    rfl
  · intro rs hr hk
    unfold check_access check_access_counted assembleRequest
    rw [hr, hk]
    rfl

/-- C2 amended witness: with both keys present, `check_access` under the
always-allow PDP returns a boolean. -/
theorem c2_amended_no_raise_when_keys_present_witness :
    returnsBool (check_access allowPdp (valuePrincipalDict sampleUser)
      simpleResourceDict "read") = true :=
  (c2_amended_no_raise_when_keys_present allowPdp (valuePrincipalDict sampleUser)
    simpleResourceDict "read").1 _ _ rfl rfl

/-- C3 counterexample: the claim says assembly fails with
`MalformedPrincipal` on an empty id or empty role collection and with
`MalformedResource` on an empty kind, surfacing as deny.  The code has no
such validation: with empty id, empty roles and empty kind the request is
assembled and sent, and a PDP that allows makes `check_access` return
`True` — an allow, not a validation failure. -/
theorem c3_counterexample_empty_fields_can_allow :
    check_access allowPdp emptyFieldsPrincipalDict emptyKindResourceDict "read" =
      Except.ok true := rfl

/-- C3 amended: request assembly performs no emptiness validation.  A
principal with empty id and empty role list and a resource with empty kind
assemble successfully into a request carrying those empty fields, and the
verdict is whatever the PDP replies for that request; only a remote failure
still collapses to deny. -/
theorem c3_amended_no_assembly_validation (pdp : PDP) :
    assembleRequest emptyFieldsPrincipalDict emptyKindResourceDict =
      Except.ok (emptyAssembledPrincipal, emptyAssembledResource) ∧
    (∀ b, pdp "read" emptyAssembledPrincipal emptyAssembledResource = Except.ok b →
      check_access pdp emptyFieldsPrincipalDict emptyKindResourceDict "read" =
        Except.ok b) ∧
    (∀ e, pdp "read" emptyAssembledPrincipal emptyAssembledResource = Except.error e →
      check_access pdp emptyFieldsPrincipalDict emptyKindResourceDict "read" =
        Except.ok false) := by
  have h0 : assembleRequest emptyFieldsPrincipalDict emptyKindResourceDict =
      Except.ok (emptyAssembledPrincipal, emptyAssembledResource) := rfl
  refine ⟨rfl, ?_, ?_⟩
  · intro b hb
    unfold check_access
    rw [check_access_counted_ok pdp _ _ _ 0 emptyAssembledPrincipal
      emptyAssembledResource h0, hb]
    rfl
  · intro e he
    unfold check_access
    rw [check_access_counted_ok pdp _ _ _ 0 emptyAssembledPrincipal
      emptyAssembledResource h0, he]
    rfl

/-- C3 amended witness: under an always-raising PDP the empty-field request
still collapses to deny (and, per the counterexample, an allowing PDP makes
it an allow — no `MalformedPrincipal`/`MalformedResource` ever occurs). -/
theorem c3_amended_no_assembly_validation_witness :
    check_access errPdp emptyFieldsPrincipalDict emptyKindResourceDict "read" =
      Except.ok false :=
  (c3_amended_no_assembly_validation errPdp).2.2 PyErr.transportError rfl

/-- C4: for read-by-id, update and delete, a post id absent from persistence
yields the 404 "Post not found" outcome with the database unchanged and the
PDP never invoked (the invocation counter does not move): the existence
check precedes the authorization check. -/
theorem c4_notfound_short_circuits (pdp : PDP) (pid : Int) (u : User)
    (db : List Post) (c : Nat) (upd : PostUpdate)
    (habsent : dbFirst db pid = none) :
    get_post pdp pid u db c = (HttpResult.httpError 404 "Post not found", db, c) ∧
    update_post pdp pid upd u db c = (HttpResult.httpError 404 "Post not found", db, c) ∧
    delete_post pdp pid u db c = (HttpResult.httpError 404 "Post not found", db, c) := by
  refine ⟨?_, ?_, ?_⟩
  · unfold get_post
    rw [habsent]
  · unfold update_post
    rw [habsent]
  · unfold delete_post
    rw [habsent]

/-- C4 witness: on the empty database every targeted operation is 404 and
the counter stays at 0. -/
theorem c4_notfound_short_circuits_witness :
    get_post allowPdp 1 sampleUser [] 0 =
      (HttpResult.httpError 404 "Post not found", [], 0) ∧
    update_post allowPdp 1 sampleUpdate sampleUser [] 0 =
      (HttpResult.httpError 404 "Post not found", [], 0) ∧
    delete_post allowPdp 1 sampleUser [] 0 =
      (HttpResult.httpError 404 "Post not found", [], 0) :=
  c4_notfound_short_circuits allowPdp 1 sampleUser [] 0 sampleUpdate rfl

/-- C5: whenever the authorization check returns deny — for any reason,
including an internal failure already collapsed to deny — each gated
operation aborts with the same generic `HTTPException(403, "Forbidden")`
and leaves the database exactly as it was: no state mutation, and the
outcome does not reveal why access was denied. -/
theorem c5_deny_aborts_uniform_forbidden (pdp : PDP) (pc : PostCreate)
    (u : User) (db : List Post) (nid pid : Int) (c : Nat) (upd : PostUpdate)
    (post : Post) (hfound : dbFirst db pid = some post)
    (hcreate : check_access pdp (valuePrincipalDict u) (actorResourceDict u)
      "create" = Except.ok false)
    (hreadall : check_access pdp (valuePrincipalDict u) (actorResourceDict u)
      "read" = Except.ok false)
    (hread : check_access pdp (memberPrincipalDict u) (existingResourceDict post)
      "read" = Except.ok false)
    (hupdate : check_access pdp (memberPrincipalDict u) (existingResourceDict post)
      "update" = Except.ok false)
    (hdelete : check_access pdp (memberPrincipalDict u) (existingResourceDict post)
      "delete" = Except.ok false) :
    create_post pdp pc u db nid c = (HttpResult.httpError 403 "Forbidden", db, c + 1) ∧
    get_posts pdp u db c = (HttpResult.httpError 403 "Forbidden", db, c + 1) ∧
    get_post pdp pid u db c = (HttpResult.httpError 403 "Forbidden", db, c + 1) ∧
    update_post pdp pid upd u db c = (HttpResult.httpError 403 "Forbidden", db, c + 1) ∧
    delete_post pdp pid u db c = (HttpResult.httpError 403 "Forbidden", db, c + 1) := by
  refine ⟨?_, ?_, ?_, ?_, ?_⟩
  · unfold create_post
    rw [check_access_counted_split pdp _ _ "create" c _ _ rfl rfl, hcreate]
  · unfold get_posts
    rw [check_access_counted_split pdp _ _ "read" c _ _ rfl rfl, hreadall]
  · unfold get_post
    simp only [hfound]
    rw [check_access_counted_split pdp (memberPrincipalDict u)
      (existingResourceDict post) "read" c [PyStrLike.roleMember u.role] "post" rfl rfl,
      hread]
  · unfold update_post
    simp only [hfound]
    rw [check_access_counted_split pdp (memberPrincipalDict u)
      (existingResourceDict post) "update" c [PyStrLike.roleMember u.role] "post" rfl rfl,
      hupdate]
  · unfold delete_post
    simp only [hfound]
    rw [check_access_counted_split pdp (memberPrincipalDict u)
      (existingResourceDict post) "delete" c [PyStrLike.roleMember u.role] "post" rfl rfl,
      hdelete]

/-- C5 witness: under an always-deny PDP every operation on a one-post
database is 403 "Forbidden" with the database unchanged. -/
theorem c5_deny_aborts_uniform_forbidden_witness :
    create_post denyPdp samplePostCreate sampleUser [samplePost] 9 0 =
      (HttpResult.httpError 403 "Forbidden", [samplePost], 1) ∧
    get_posts denyPdp sampleUser [samplePost] 0 =
      (HttpResult.httpError 403 "Forbidden", [samplePost], 1) ∧
    get_post denyPdp 5 sampleUser [samplePost] 0 =
      (HttpResult.httpError 403 "Forbidden", [samplePost], 1) ∧
    update_post denyPdp 5 sampleUpdate sampleUser [samplePost] 0 =
      (HttpResult.httpError 403 "Forbidden", [samplePost], 1) ∧
    delete_post denyPdp 5 sampleUser [samplePost] 0 =
      (HttpResult.httpError 403 "Forbidden", [samplePost], 1) :=
  c5_deny_aborts_uniform_forbidden denyPdp samplePostCreate sampleUser [samplePost]
    9 5 0 sampleUpdate samplePost (by decide) rfl rfl rfl rfl rfl

/-- C6: the resource descriptor sent to the PDP.  For a create (the dicts
built by `create_post`, where no entity exists yet) it is kind `"post"`, id
`"0"` (the absent `id` key defaults to `"0"` in `check_access`), and an
attribute map binding `author_id` to the acting principal's id (stringified
on the wire).  For read/update/delete on an existing entity (the dicts built
by `get_post`/`update_post`/`delete_post`) it is id `str(post.id)` and
`author_id` bound to the entity's stored owner id. -/
theorem c6_resource_descriptor_shape (u : User) (post : Post) :
    assembleRequest (valuePrincipalDict u) (actorResourceDict u) =
      Except.ok
        ({ id := toString u.id, roles := [u.role.val], policy_version := "default"
           attr := [] },
         { id := "0", kind := "post", policy_version := "default"
           attr := [("author_id", PbValue.stringValue (toString u.id))] }) ∧
    assembleRequest (memberPrincipalDict u) (existingResourceDict post) =
      Except.ok
        ({ id := toString u.id, roles := [u.role.val], policy_version := "default"
           attr := [] },
         { id := toString post.id, kind := "post", policy_version := "default"
           attr := [("author_id", PbValue.stringValue (toString post.author_id))] }) :=
  ⟨rfl, rfl⟩

/-- C7: in any successfully assembled request, the attribute maps are exactly
the original maps with every value coerced to its `str` form as a
string-typed protobuf `Value` — so every value is string-typed and equals
the original scalar's canonical string representation (`42` becomes
`"42"`). -/
theorem c7_attrs_stringified (pd : PrincipalDict) (rd : ResourceDict)
    (P : EnginePrincipal) (R : EngineResource)
    (h : assembleRequest pd rd = Except.ok (P, R)) :
    P.attr = pd.attr.map (fun kv => (kv.1, PbValue.stringValue kv.2.str)) ∧
    P.attr.all (fun kv => kv.2.isString) = true ∧
    R.attr = rd.attr.map (fun kv => (kv.1, PbValue.stringValue kv.2.str)) ∧
    R.attr.all (fun kv => kv.2.isString) = true := by
  cases hr : pd.roles with
  | none =>
    unfold assembleRequest at h
    rw [hr] at h
    have h' : (Except.error (PyErr.keyError "roles") :
        Except PyErr (EnginePrincipal × EngineResource)) = Except.ok (P, R) := h
    exact Except.noConfusion h'
  | some rs =>
    cases hk : rd.kind with
    | none =>
      unfold assembleRequest at h
      rw [hr, hk] at h
      have h' : (Except.error (PyErr.keyError "kind") :
          Except PyErr (EnginePrincipal × EngineResource)) = Except.ok (P, R) := h
      exact Except.noConfusion h'
    | some k =>
      rw [assembleRequest_ok pd rd rs k hr hk] at h
      simp only [Except.ok.injEq, Prod.mk.injEq] at h
      obtain ⟨hP, hR⟩ := h
      subst hP
      subst hR
      exact ⟨rfl, all_isString_map pd.attr, rfl, all_isString_map rd.attr⟩

/-- C7 witness: a principal attribute map with a string and an int and a
resource attribute map with an int and a bool are assembled as string-typed
values carrying `"eng"`, `"42"`, `"42"` and `"True"`. -/
theorem c7_attrs_stringified_witness :
    attrAssembledPrincipal.attr = attrPrincipalDict.attr.map
      (fun kv => (kv.1, PbValue.stringValue kv.2.str)) ∧
    attrAssembledPrincipal.attr.all (fun kv => kv.2.isString) = true ∧
    attrAssembledResource.attr = attrResourceDict.attr.map
      (fun kv => (kv.1, PbValue.stringValue kv.2.str)) ∧
    attrAssembledResource.attr.all (fun kv => kv.2.isString) = true :=
  c7_attrs_stringified attrPrincipalDict attrResourceDict
    attrAssembledPrincipal attrAssembledResource rfl

/-- C8: at every call site of the authorization check the assembled role
collection has exactly one element equal to the acting role's string value.
`create_post` and `get_posts` build `valuePrincipalDict` (roles
`[current_user.role.value]`); `get_post`, `update_post` and `delete_post`
build `memberPrincipalDict` (roles `[current_user.role]`, the `str`-mixin
enum member whose character data on the protobuf wire is the member's
value).  Both assemble to the one-element collection `[role.value]`. -/
theorem c8_single_role_normalization (u : User) (post : Post) :
    Except.map (fun pr => pr.1.roles)
      (assembleRequest (valuePrincipalDict u) (actorResourceDict u)) =
      Except.ok [u.role.val] ∧
    Except.map (fun pr => pr.1.roles)
      (assembleRequest (memberPrincipalDict u) (existingResourceDict post)) =
      Except.ok [u.role.val] :=
  ⟨rfl, rfl⟩

/-- C9: two calls of the check with identical principal, resource and action
under an unchanged PDP yield the same verdict, and each call performs exactly
one fresh remote invocation (the counter moves by one per call): there is no
memoization or mutable decision state. -/
theorem c9_idempotent_no_memoization (pdp : PDP) (pd : PrincipalDict)
    (rd : ResourceDict) (a : String) (c : Nat) (rs : List PyStrLike) (k : String)
    (hr : pd.roles = some rs) (hk : rd.kind = some k) :
    (check_access_counted pdp pd rd a c).1 =
      (check_access_counted pdp pd rd a ((check_access_counted pdp pd rd a c).2)).1 ∧
    (check_access_counted pdp pd rd a c).1 = check_access pdp pd rd a ∧
    (check_access_counted pdp pd rd a c).2 = c + 1 ∧
    (check_access_counted pdp pd rd a ((check_access_counted pdp pd rd a c).2)).2 =
      c + 1 + 1 := by
  have h1 := check_access_counted_split pdp pd rd a c rs k hr hk
  have h2 := check_access_counted_split pdp pd rd a (c + 1) rs k hr hk
  simp [h1, h2]

/-- C9 witness: two identical checks against the always-allow PDP agree and
each performs one remote invocation. -/
theorem c9_idempotent_no_memoization_witness :
    (check_access_counted allowPdp (memberPrincipalDict sampleUser)
      (existingResourceDict samplePost) "read" 0).1 =
      (check_access_counted allowPdp (memberPrincipalDict sampleUser)
        (existingResourceDict samplePost) "read"
        ((check_access_counted allowPdp (memberPrincipalDict sampleUser)
          (existingResourceDict samplePost) "read" 0).2)).1 ∧
    (check_access_counted allowPdp (memberPrincipalDict sampleUser)
      (existingResourceDict samplePost) "read" 0).1 =
      check_access allowPdp (memberPrincipalDict sampleUser)
        (existingResourceDict samplePost) "read" ∧
    (check_access_counted allowPdp (memberPrincipalDict sampleUser)
      (existingResourceDict samplePost) "read" 0).2 = 0 + 1 ∧
    (check_access_counted allowPdp (memberPrincipalDict sampleUser)
      (existingResourceDict samplePost) "read"
      ((check_access_counted allowPdp (memberPrincipalDict sampleUser)
        (existingResourceDict samplePost) "read" 0).2)).2 = 0 + 1 + 1 :=
  c9_idempotent_no_memoization allowPdp (memberPrincipalDict sampleUser)
    (existingResourceDict samplePost) "read" 0 _ _ rfl rfl

/-- C10: an authorized `update_post` replaces the stored post by
`applyUpdate`, which modifies exactly the fields present in the payload:
`title` and `content` become the payload values when provided and keep their
previous values when the field is omitted (`exclude_unset`), while `id` and
`author_id` always keep their previous values. -/
theorem c10_update_frame (pdp : PDP) (pid : Int) (upd : PostUpdate) (u : User)
    (db : List Post) (c : Nat) (post : Post)
    (hfound : dbFirst db pid = some post)
    (hallow : check_access pdp (memberPrincipalDict u) (existingResourceDict post)
      "update" = Except.ok true) :
    update_post pdp pid upd u db c =
      (HttpResult.ok (applyUpdate upd post), updateWhere db pid (applyUpdate upd),
        c + 1) ∧
    (applyUpdate upd post).id = post.id ∧
    (applyUpdate upd post).author_id = post.author_id ∧
    (applyUpdate upd post).title = upd.title.getD post.title ∧
    (applyUpdate upd post).content = upd.content.getD post.content := by
  refine ⟨?_, ?_, ?_, ?_, ?_⟩
  · unfold update_post
    simp only [hfound]
    rw [check_access_counted_split pdp (memberPrincipalDict u)
      (existingResourceDict post) "update" c [PyStrLike.roleMember u.role] "post" rfl rfl,
      hallow]
  · cases ht : upd.title <;> cases hc : upd.content <;> simp [applyUpdate, ht, hc]
  · cases ht : upd.title <;> cases hc : upd.content <;> simp [applyUpdate, ht, hc]
  · cases ht : upd.title <;> cases hc : upd.content <;> simp [applyUpdate, ht, hc]
  · cases ht : upd.title <;> cases hc : upd.content <;> simp [applyUpdate, ht, hc]

/-- C10 witness: an authorized update with a payload providing only `title`
changes the title, keeps the content, and retains `id` and `author_id`. -/
theorem c10_update_frame_witness :
    update_post allowPdp 5 sampleUpdate sampleUser [samplePost] 0 =
      (HttpResult.ok (applyUpdate sampleUpdate samplePost),
        updateWhere [samplePost] 5 (applyUpdate sampleUpdate), 0 + 1) ∧
    (applyUpdate sampleUpdate samplePost).id = samplePost.id ∧
    (applyUpdate sampleUpdate samplePost).author_id = samplePost.author_id ∧
    (applyUpdate sampleUpdate samplePost).title = sampleUpdate.title.getD samplePost.title ∧
    (applyUpdate sampleUpdate samplePost).content =
      sampleUpdate.content.getD samplePost.content :=
  c10_update_frame allowPdp 5 sampleUpdate sampleUser [samplePost] 0 samplePost
    (by decide) rfl

end BlogApp
